import Mathlib

/-!
Verification of the composite river-conditions scoring engine of
PittWaterHUD (app.py).  The engine and its helper classifiers are embedded
as pure Lean functions over exact rationals; every optional provider field
is an `Option`, and Python truthiness tests (`if x and ...`) are embedded
as the explicit test `x present and x ≠ 0`.  Fractional thresholds are
written with `mkRat` so that concrete runs of the engine reduce inside the
kernel.
-/

-- ── string helpers ──────────────────────────────────────────────────────────

/-- `takesPrefix p s` is true when the char list `p` is an initial segment
of `s`. -/
def takesPrefix : List Char → List Char → Bool
  | [], _ => true
  | _ :: _, [] => false
  | p :: ps, c :: cs => p = c && takesPrefix ps cs

/-- `hasSubChars pat s` is true when `pat` occurs contiguously inside `s`;
embeds the Python substring test `pat in s`. -/
def hasSubChars (pat : List Char) : List Char → Bool
  | [] => pat.isEmpty
  | c :: cs => takesPrefix pat (c :: cs) || hasSubChars pat cs

/-- ASCII lowering of a string, as a char list; embeds `s.lower()`. -/
def charsLower (s : String) : List Char := s.toList.map Char.toLower

-- ── numeric formatting (Python f-string directives) ─────────────────────────

/-- Round-half-to-even on an exact rational, the rounding Python `round`
and `format` use, computed with integer arithmetic only so that the kernel
can evaluate it. -/
def roundHalfEven (x : ℚ) : ℤ :=
  let d : ℤ := (x.den : ℤ)
  let f : ℤ := x.num.fdiv d
  let r : ℤ := x.num - f * d
  if 2 * r < d then f
  else if 2 * r > d then f + 1
  else if f % 2 = 0 then f else f + 1

/-- Embeds the Python format directive `:.0f`. -/
def fmt0 (x : ℚ) : String := toString (roundHalfEven x)

/-- Embeds the Python format directive `:.2f`: two decimal digits. -/
def fmt2 (x : ℚ) : String :=
  let n := roundHalfEven (x * 100)
  let sign := if n < 0 then "-" else ""
  let m := n.natAbs
  sign ++ toString (m / 100) ++ "." ++
    (if m % 100 < 10 then "0" else "") ++ toString (m % 100)

/-- Embeds Python `round(x, 1)`. -/
def pyRound1 (x : ℚ) : ℚ := mkRat (roundHalfEven (x * 10)) 10

-- ── configuration (app.py RIVERS table) ─────────────────────────────────────

/-- The scoring-relevant part of one entry of the `RIVERS` config table
(app.py lines 27-60): display name and the two NWS stage thresholds in
feet.  Site ids, colors, icons and upstream references are fetch or
presentation concerns and are not read by the scoring engine. -/
structure RiverCfg where
  name : String
  action_stage : ℚ
  flood_stage : ℚ
deriving DecidableEq

/-- The three configured waterways, in the iteration order of the Python
dict (insertion order). -/
def RIVERS : List RiverCfg :=
  [⟨"Monongahela", 17, 25⟩, ⟨"Allegheny", 18, 25⟩, ⟨"Ohio", 16, 24⟩]

-- ── per-river stage classifier (app.py lines 215-224) ───────────────────────

/-- Embeds `stage_status(gauge, action, flood)` (app.py lines 215-224):
returns the `(tier, display label, color token)` triple.  The source tests
`gauge is None`, not truthiness, so a present reading of `0` is classified
like any other number. -/
def stage_status (gauge : Option ℚ) (action flood : ℚ) :
    String × String × String :=
  match gauge with
  | none => ("unknown", "—", "#546e7a")
  | some g =>
    if g ≥ flood then ("flood", "⚠ FLOOD STAGE (" ++ fmt2 g ++ " ft)", "#ef5350")
    else if g ≥ action then ("action", "▲ ACTION STAGE (" ++ fmt2 g ++ " ft)", "#ffa726")
    else if g ≥ action - 3 then ("elevated", "↑ ELEVATED (" ++ fmt2 g ++ " ft)", "#ffcc80")
    else ("normal", "● NORMAL (" ++ fmt2 g ++ " ft)", "#66bb6a")

-- ── CSO risk estimator (app.py lines 256-262) ───────────────────────────────

/-- Embeds `cso_risk_from_precip(precip_24h_in, precip_prob_pct)` (app.py
lines 256-262); callers pass `x or 0` for missing inputs, so the function
itself takes plain numbers. -/
def cso_risk_from_precip (precip_24h_in precip_prob_pct : ℚ) :
    String × String × String :=
  if precip_24h_in ≥ mkRat 1 2 ∨ precip_prob_pct ≥ 70 then
    ("HIGH OVERFLOW RISK", "alcosan-warn", "▲")
  else if precip_24h_in ≥ mkRat 1 5 ∨ precip_prob_pct ≥ 40 then
    ("MODERATE RISK", "alcosan-warn", "◈")
  else ("LOW RISK", "alcosan-ok", "●")

-- ── normalization and display classifiers ───────────────────────────────────

/-- Embeds app.py line 540:
`visibility_mi = round(visibility_m / 1609.34, 1) if visibility_m else None`.
The guard is Python truthiness, so a present reading of exactly `0` meters
maps to `none`, and otherwise the value is converted to miles and rounded
to one decimal. -/
def visibility_mi_of (visibility_m : Option ℚ) : Option ℚ :=
  match visibility_m with
  | none => none
  | some v => if v = 0 then none else some (pyRound1 (v / mkRat 160934 100))

/-- Embeds the display fog-risk classifier, app.py line 702:
`"HIGH" if (visibility_mi and visibility_mi < 1) else
("MODERATE" if (visibility_mi and visibility_mi < 3) else "LOW")`.
The truthiness guards make both an absent and a zero reading fall to
`"LOW"`. -/
def fog_risk (visibility_mi : Option ℚ) : String :=
  match visibility_mi with
  | none => "LOW"
  | some x =>
    if x ≠ 0 ∧ x < 1 then "HIGH"
    else if x ≠ 0 ∧ x < 3 then "MODERATE"
    else "LOW"

-- ── composite scoring engine (app.py lines 552-600) ─────────────────────────

/-- The normalized snapshot the engine reads: one optional gauge height per
river name (`current_data[river].get("gauge_ft")`), the NWS alert event
strings, and the scalar weather, precipitation, air-quality, visibility
and weather-code fields parsed at app.py lines 506-545. -/
structure Snapshot where
  gauge_ft : String → Option ℚ
  alert_events : List String
  wind_speed : Option ℚ
  precip_prob_today : Option ℚ
  precip_sum_today : Option ℚ
  aqi_val : Option ℤ
  visibility_mi : Option ℚ
  weather_code : Option ℤ

/-- Contribution of one waterway to `issues` (app.py lines 557-562):
`if g and g >= cfg["flood_stage"]` appends the flood issue, `elif g and
g >= cfg["action_stage"]` the action issue; the truthiness test on `g` is
embedded as `g ≠ 0`. -/
def riverIssue (cfg : RiverCfg) (g : Option ℚ) : List String :=
  match g with
  | none => []
  | some g =>
    if g ≠ 0 ∧ g ≥ cfg.flood_stage then [cfg.name ++ " at FLOOD STAGE"]
    else if g ≠ 0 ∧ g ≥ cfg.action_stage then [cfg.name ++ " at ACTION STAGE"]
    else []

/-- The waterway issues accumulated over `RIVERS` in iteration order
(app.py lines 556-562). -/
def riversIssues (gauge : String → Option ℚ) : List String :=
  (RIVERS.map (fun cfg => riverIssue cfg (gauge cfg.name))).flatten

/-- Embeds the alert filter predicate of app.py line 566:
`"flood" in a["event"].lower() or "flash" in a["event"].lower()`. -/
def isFloodAlert (event : String) : Bool :=
  hasSubChars "flood".toList (charsLower event) ||
  hasSubChars "flash".toList (charsLower event)

/-- Alert rule (app.py lines 566-568): one fixed issue when any active
alert matches the flood keywords. -/
def alertIssues (events : List String) : List String :=
  if events.filter isFloodAlert ≠ [] then ["NWS FLOOD ALERT ACTIVE"] else []

/-- Wind rule, issue half (app.py lines 571-572): `if wind_speed and
wind_speed > 25`. -/
def windIssues (w : Option ℚ) : List String :=
  match w with
  | none => []
  | some x =>
    if x ≠ 0 ∧ x > 25 then ["DANGEROUS WIND (" ++ fmt0 x ++ " mph)"] else []

/-- Wind rule, warning half (app.py lines 573-574): the `elif wind_speed
and wind_speed > 15` branch, reached only when the issue branch did not
fire. -/
def windWarns (w : Option ℚ) : List String :=
  match w with
  | none => []
  | some x =>
    if x ≠ 0 ∧ x > 25 then []
    else if x ≠ 0 ∧ x > 15 then ["HIGH WIND (" ++ fmt0 x ++ " mph)"] else []

/-- Precipitation / CSO rule (app.py lines 577-578):
`if (precip_prob_today or 0) > 70 or (precip_sum_today or 0) > 0.5`. -/
def precipWarns (prob sum : Option ℚ) : List String :=
  if prob.getD 0 > 70 ∨ sum.getD 0 > mkRat 1 2 then ["RAIN / CSO RISK"] else []

/-- Air-quality rule, issue half (app.py lines 581-582): `if aqi_val and
aqi_val > 150`. -/
def aqiIssues (a : Option ℤ) : List String :=
  match a with
  | none => []
  | some v =>
    if v ≠ 0 ∧ v > 150 then ["POOR AIR QUALITY (AQI " ++ toString v ++ ")"]
    else []

/-- Air-quality rule, warning half (app.py lines 583-584): the `elif
aqi_val and aqi_val > 100` branch. -/
def aqiWarns (a : Option ℤ) : List String :=
  match a with
  | none => []
  | some v =>
    if v ≠ 0 ∧ v > 150 then []
    else if v ≠ 0 ∧ v > 100 then ["MODERATE AIR QUALITY (AQI " ++ toString v ++ ")"]
    else []

/-- Visibility rule, issue half (app.py lines 587-588): `if visibility_mi
and visibility_mi < 0.5`. -/
def visIssues (v : Option ℚ) : List String :=
  match v with
  | none => []
  | some x =>
    if x ≠ 0 ∧ x < mkRat 1 2 then ["DENSE FOG — LIMITED VISIBILITY"] else []

/-- Visibility rule, warning half (app.py lines 589-590): the `elif
visibility_mi and visibility_mi < 2` branch. -/
def visWarns (v : Option ℚ) : List String :=
  match v with
  | none => []
  | some x =>
    if x ≠ 0 ∧ x < mkRat 1 2 then []
    else if x ≠ 0 ∧ x < 2 then ["REDUCED VISIBILITY / FOG"] else []

/-- Thunderstorm rule (app.py lines 593-594): `if weather_code and
weather_code >= 95`. -/
def stormIssues (c : Option ℤ) : List String :=
  match c with
  | none => []
  | some v => if v ≠ 0 ∧ v ≥ 95 then ["THUNDERSTORM ACTIVE"] else []

/-- The 5-tuple `composite_score` returns (app.py lines 596-599), with
named fields. -/
structure Score where
  label : String
  css : String
  icon : String
  issues : List String
  warnings : List String
deriving DecidableEq

/-- Final reduction of `composite_score` (app.py lines 596-599): the three
`return` statements guarded by `if issues` / `if warnings` (Python list
truthiness = non-emptiness). -/
def verdict_of (issues warnings : List String) : Score :=
  if issues ≠ [] then ⟨"STAY OFF WATER", "score-danger", "✕", issues, warnings⟩
  else if warnings ≠ [] then ⟨"USE CAUTION", "score-caution", "⚠", issues, warnings⟩
  else ⟨"CONDITIONS FAVORABLE", "score-go", "✓", issues, warnings⟩

/-- Embeds `composite_score()` (app.py lines 552-599).  The source mutates
two lists with `append` in fixed program order; here each list is the
concatenation of the per-rule contributions in exactly that order, and the
tail of the function is the `verdict_of` reduction. -/
def composite_score (s : Snapshot) : Score :=
  verdict_of
    (riversIssues s.gauge_ft ++ alertIssues s.alert_events ++
      windIssues s.wind_speed ++ aqiIssues s.aqi_val ++
      visIssues s.visibility_mi ++ stormIssues s.weather_code)
    (windWarns s.wind_speed ++
      precipWarns s.precip_prob_today s.precip_sum_today ++
      aqiWarns s.aqi_val ++ visWarns s.visibility_mi)

/-- Builds a snapshot from one optional gauge reading per configured river
plus the global fields, for concrete runs of the engine. -/
def mkSnap (mon alle ohio : Option ℚ) (alerts : List String)
    (wind prob sum : Option ℚ) (aqi : Option ℤ) (vis : Option ℚ)
    (code : Option ℤ) : Snapshot :=
  ⟨fun r =>
      if r = "Monongahela" then mon
      else if r = "Allegheny" then alle
      else if r = "Ohio" then ohio
      else none,
    alerts, wind, prob, sum, aqi, vis, code⟩

/-- A snapshot on which every issue-producing rule fires: all three rivers
at flood stage, an active flood alert, dangerous wind, heavy rain, bad
air, dense fog and a thunderstorm. -/
def dangerSnap : Snapshot :=
  mkSnap (some 26) (some 26) (some 25) ["Flood Warning"] (some 30) (some 80)
    (some 1) (some 200) (some (mkRat 3 10)) (some 95)

-- ── theorems ────────────────────────────────────────────────────────────────

/-- The three return branches of the engine, characterised: the label says
Danger exactly when `issues` is non-empty, Caution exactly when `issues`
is empty and `warnings` is not, Favorable exactly when both are empty. -/
theorem verdict_of_spec (i w : List String) :
    ((verdict_of i w).label = "STAY OFF WATER" ↔ (verdict_of i w).issues ≠ []) ∧
    ((verdict_of i w).label = "USE CAUTION" ↔
      (verdict_of i w).issues = [] ∧ (verdict_of i w).warnings ≠ []) ∧
    ((verdict_of i w).label = "CONDITIONS FAVORABLE" ↔
      (verdict_of i w).issues = [] ∧ (verdict_of i w).warnings = []) := by
  unfold verdict_of
  split_ifs with h1 h2
  · exact ⟨⟨fun _ => h1, fun _ => rfl⟩,
      ⟨fun h => absurd h (show ("STAY OFF WATER" : String) ≠ "USE CAUTION" by decide),
        fun hc => absurd hc.1 h1⟩,
      ⟨fun h => absurd h (show ("STAY OFF WATER" : String) ≠ "CONDITIONS FAVORABLE" by decide),
        fun hc => absurd hc.1 h1⟩⟩
  · exact ⟨⟨fun h => absurd h (show ("USE CAUTION" : String) ≠ "STAY OFF WATER" by decide),
        fun hc => absurd hc h1⟩,
      ⟨fun _ => ⟨not_not.mp h1, h2⟩, fun _ => rfl⟩,
      ⟨fun h => absurd h (show ("USE CAUTION" : String) ≠ "CONDITIONS FAVORABLE" by decide),
        fun hc => absurd hc.2 h2⟩⟩
  · exact ⟨⟨fun h => absurd h (show ("CONDITIONS FAVORABLE" : String) ≠ "STAY OFF WATER" by decide),
        fun hc => absurd hc h1⟩,
      ⟨fun h => absurd h (show ("CONDITIONS FAVORABLE" : String) ≠ "USE CAUTION" by decide),
        fun hc => absurd hc.2 h2⟩,
      ⟨fun _ => ⟨not_not.mp h1, not_not.mp h2⟩, fun _ => rfl⟩⟩

/-- C1: for every snapshot, `composite_score` returns the Danger verdict
(STAY OFF WATER) iff its returned `issues` list is non-empty, the Caution
verdict (USE CAUTION) iff `issues` is empty and `warnings` is non-empty,
and the Favorable verdict (CONDITIONS FAVORABLE) iff both are empty. -/
theorem composite_verdict_iff (s : Snapshot) :
    ((composite_score s).label = "STAY OFF WATER" ↔
      (composite_score s).issues ≠ []) ∧
    ((composite_score s).label = "USE CAUTION" ↔
      (composite_score s).issues = [] ∧ (composite_score s).warnings ≠ []) ∧
    ((composite_score s).label = "CONDITIONS FAVORABLE" ↔
      (composite_score s).issues = [] ∧ (composite_score s).warnings = []) := by
  unfold composite_score
  exact verdict_of_spec _ _

/-- C2: the engine is total over every combination of present/absent
optional inputs — it always returns one of the three verdicts — and for
each individual optional field (each river gauge, the alert list, wind,
precipitation probability, precipitation sum, AQI, visibility, weather
code), making that one field absent while all other inputs sit at a
configuration on which every issue rule fires removes only the issue of
the rule that reads the absent field, never the issues of the unrelated
rules. -/
theorem composite_total_and_absence_safe :
    (∀ s : Snapshot,
      (composite_score s).label = "STAY OFF WATER" ∨
      (composite_score s).label = "USE CAUTION" ∨
      (composite_score s).label = "CONDITIONS FAVORABLE") ∧
    composite_score dangerSnap =
      ⟨"STAY OFF WATER", "score-danger", "✕",
        ["Monongahela at FLOOD STAGE", "Allegheny at FLOOD STAGE",
         "Ohio at FLOOD STAGE", "NWS FLOOD ALERT ACTIVE",
         "DANGEROUS WIND (30 mph)", "POOR AIR QUALITY (AQI 200)",
         "DENSE FOG — LIMITED VISIBILITY", "THUNDERSTORM ACTIVE"],
        ["RAIN / CSO RISK"]⟩ ∧
    composite_score (mkSnap none (some 26) (some 25) ["Flood Warning"]
        (some 30) (some 80) (some 1) (some 200) (some (mkRat 3 10)) (some 95)) =
      ⟨"STAY OFF WATER", "score-danger", "✕",
        ["Allegheny at FLOOD STAGE", "Ohio at FLOOD STAGE",
         "NWS FLOOD ALERT ACTIVE", "DANGEROUS WIND (30 mph)",
         "POOR AIR QUALITY (AQI 200)", "DENSE FOG — LIMITED VISIBILITY",
         "THUNDERSTORM ACTIVE"],
        ["RAIN / CSO RISK"]⟩ ∧
    composite_score (mkSnap (some 26) none (some 25) ["Flood Warning"]
        (some 30) (some 80) (some 1) (some 200) (some (mkRat 3 10)) (some 95)) =
      ⟨"STAY OFF WATER", "score-danger", "✕",
        ["Monongahela at FLOOD STAGE", "Ohio at FLOOD STAGE",
         "NWS FLOOD ALERT ACTIVE", "DANGEROUS WIND (30 mph)",
         "POOR AIR QUALITY (AQI 200)", "DENSE FOG — LIMITED VISIBILITY",
         "THUNDERSTORM ACTIVE"],
        ["RAIN / CSO RISK"]⟩ ∧
    composite_score (mkSnap (some 26) (some 26) none ["Flood Warning"]
        (some 30) (some 80) (some 1) (some 200) (some (mkRat 3 10)) (some 95)) =
      ⟨"STAY OFF WATER", "score-danger", "✕",
        ["Monongahela at FLOOD STAGE", "Allegheny at FLOOD STAGE",
         "NWS FLOOD ALERT ACTIVE", "DANGEROUS WIND (30 mph)",
         "POOR AIR QUALITY (AQI 200)", "DENSE FOG — LIMITED VISIBILITY",
         "THUNDERSTORM ACTIVE"],
        ["RAIN / CSO RISK"]⟩ ∧
    composite_score (mkSnap (some 26) (some 26) (some 25) []
        (some 30) (some 80) (some 1) (some 200) (some (mkRat 3 10)) (some 95)) =
      ⟨"STAY OFF WATER", "score-danger", "✕",
        ["Monongahela at FLOOD STAGE", "Allegheny at FLOOD STAGE",
         "Ohio at FLOOD STAGE", "DANGEROUS WIND (30 mph)",
         "POOR AIR QUALITY (AQI 200)", "DENSE FOG — LIMITED VISIBILITY",
         "THUNDERSTORM ACTIVE"],
        ["RAIN / CSO RISK"]⟩ ∧
    composite_score (mkSnap (some 26) (some 26) (some 25) ["Flood Warning"]
        none (some 80) (some 1) (some 200) (some (mkRat 3 10)) (some 95)) =
      ⟨"STAY OFF WATER", "score-danger", "✕",
        ["Monongahela at FLOOD STAGE", "Allegheny at FLOOD STAGE",
         "Ohio at FLOOD STAGE", "NWS FLOOD ALERT ACTIVE",
         "POOR AIR QUALITY (AQI 200)", "DENSE FOG — LIMITED VISIBILITY",
         "THUNDERSTORM ACTIVE"],
        ["RAIN / CSO RISK"]⟩ ∧
    composite_score (mkSnap (some 26) (some 26) (some 25) ["Flood Warning"]
        (some 30) none (some 1) (some 200) (some (mkRat 3 10)) (some 95)) =
      ⟨"STAY OFF WATER", "score-danger", "✕",
        ["Monongahela at FLOOD STAGE", "Allegheny at FLOOD STAGE",
         "Ohio at FLOOD STAGE", "NWS FLOOD ALERT ACTIVE",
         "DANGEROUS WIND (30 mph)", "POOR AIR QUALITY (AQI 200)",
         "DENSE FOG — LIMITED VISIBILITY", "THUNDERSTORM ACTIVE"],
        ["RAIN / CSO RISK"]⟩ ∧
    composite_score (mkSnap (some 26) (some 26) (some 25) ["Flood Warning"]
        (some 30) (some 80) none (some 200) (some (mkRat 3 10)) (some 95)) =
      ⟨"STAY OFF WATER", "score-danger", "✕",
        ["Monongahela at FLOOD STAGE", "Allegheny at FLOOD STAGE",
         "Ohio at FLOOD STAGE", "NWS FLOOD ALERT ACTIVE",
         "DANGEROUS WIND (30 mph)", "POOR AIR QUALITY (AQI 200)",
         "DENSE FOG — LIMITED VISIBILITY", "THUNDERSTORM ACTIVE"],
        ["RAIN / CSO RISK"]⟩ ∧
    composite_score (mkSnap (some 26) (some 26) (some 25) ["Flood Warning"]
        (some 30) (some 80) (some 1) none (some (mkRat 3 10)) (some 95)) =
      ⟨"STAY OFF WATER", "score-danger", "✕",
        ["Monongahela at FLOOD STAGE", "Allegheny at FLOOD STAGE",
         "Ohio at FLOOD STAGE", "NWS FLOOD ALERT ACTIVE",
         "DANGEROUS WIND (30 mph)", "DENSE FOG — LIMITED VISIBILITY",
         "THUNDERSTORM ACTIVE"],
        ["RAIN / CSO RISK"]⟩ ∧
    composite_score (mkSnap (some 26) (some 26) (some 25) ["Flood Warning"]
        (some 30) (some 80) (some 1) (some 200) none (some 95)) =
      ⟨"STAY OFF WATER", "score-danger", "✕",
        ["Monongahela at FLOOD STAGE", "Allegheny at FLOOD STAGE",
         "Ohio at FLOOD STAGE", "NWS FLOOD ALERT ACTIVE",
         "DANGEROUS WIND (30 mph)", "POOR AIR QUALITY (AQI 200)",
         "THUNDERSTORM ACTIVE"],
        ["RAIN / CSO RISK"]⟩ ∧
    composite_score (mkSnap (some 26) (some 26) (some 25) ["Flood Warning"]
        (some 30) (some 80) (some 1) (some 200) (some (mkRat 3 10)) none) =
      ⟨"STAY OFF WATER", "score-danger", "✕",
        ["Monongahela at FLOOD STAGE", "Allegheny at FLOOD STAGE",
         "Ohio at FLOOD STAGE", "NWS FLOOD ALERT ACTIVE",
         "DANGEROUS WIND (30 mph)", "POOR AIR QUALITY (AQI 200)",
         "DENSE FOG — LIMITED VISIBILITY"],
        ["RAIN / CSO RISK"]⟩ := by
  refine ⟨?_, by decide, by decide, by decide, by decide, by decide, by decide,
    by decide, by decide, by decide, by decide, by decide⟩
  intro s
  unfold composite_score verdict_of
  split_ifs
  · exact Or.inl rfl
  · exact Or.inr (Or.inl rfl)
  · exact Or.inr (Or.inr rfl)

/-- C3: when every provider input is absent — no gauge reading for any
waterway, an empty alert list, and absent wind, precipitation
probability, precipitation sum, AQI, visibility and weather code — the
engine returns the Favorable verdict with empty issues and warnings. -/
theorem composite_all_absent_favorable :
    composite_score (mkSnap none none none [] none none none none none none) =
      ⟨"CONDITIONS FAVORABLE", "score-go", "✓", [], []⟩ := by decide

/-- Case analysis of the per-river stage rule for a config with positive
action stage below the flood stage (true of all three configured rivers):
at or above flood stage the flood issue, otherwise at or above action
stage the action issue, below action stage nothing. -/
theorem riverIssue_cases (cfg : RiverCfg) (h1 : 0 < cfg.action_stage)
    (h2 : cfg.action_stage ≤ cfg.flood_stage) (g : ℚ) :
    (cfg.flood_stage ≤ g →
      riverIssue cfg (some g) = [cfg.name ++ " at FLOOD STAGE"]) ∧
    (g < cfg.flood_stage → cfg.action_stage ≤ g →
      riverIssue cfg (some g) = [cfg.name ++ " at ACTION STAGE"]) ∧
    (g < cfg.action_stage → riverIssue cfg (some g) = []) := by
  refine ⟨?_, ?_, ?_⟩
  · intro hf
    have hg : g ≠ 0 := ne_of_gt (lt_of_lt_of_le (lt_of_lt_of_le h1 h2) hf)
    simp only [riverIssue]
    rw [if_pos ⟨hg, hf⟩]
  · intro hlt hact
    have hg : g ≠ 0 := ne_of_gt (lt_of_lt_of_le h1 hact)
    simp only [riverIssue]
    rw [if_neg (fun hc => absurd hc.2 (not_le.mpr hlt)), if_pos ⟨hg, hact⟩]
  · intro hlt
    simp only [riverIssue]
    rw [if_neg (fun hc => absurd hc.2 (not_le.mpr (lt_of_lt_of_le hlt h2))),
        if_neg (fun hc => absurd hc.2 (not_le.mpr hlt))]

/-- C4: for each configured waterway with a present stage reading, stage
at or above the flood stage yields exactly the issue `<river> at FLOOD
STAGE`, otherwise stage at or above the action stage yields exactly
`<river> at ACTION STAGE`; both comparisons are boundary-inclusive, and a
stage below the action stage (the elevated band included) contributes
nothing to the score. -/
theorem river_stage_issue_rule :
    ∀ cfg ∈ RIVERS, ∀ g : ℚ,
      (cfg.flood_stage ≤ g →
        riverIssue cfg (some g) = [cfg.name ++ " at FLOOD STAGE"]) ∧
      (g < cfg.flood_stage → cfg.action_stage ≤ g →
        riverIssue cfg (some g) = [cfg.name ++ " at ACTION STAGE"]) ∧
      (g < cfg.action_stage → riverIssue cfg (some g) = []) := by
  intro cfg hcfg g
  have hmem : cfg = ⟨"Monongahela", 17, 25⟩ ∨ cfg = ⟨"Allegheny", 18, 25⟩ ∨
      cfg = ⟨"Ohio", 16, 24⟩ := by simpa [RIVERS] using hcfg
  rcases hmem with rfl | rfl | rfl
  · exact riverIssue_cases _ (by decide) (by decide) g
  · exact riverIssue_cases _ (by decide) (by decide) g
  · exact riverIssue_cases _ (by decide) (by decide) g

/-- Witness for C4 at the boundary: the Monongahela at exactly its 25.0 ft
flood stage produces the flood issue. -/
theorem river_stage_issue_rule_witness :
    riverIssue ⟨"Monongahela", 17, 25⟩ (some 25) =
      ["Monongahela at FLOOD STAGE"] :=
  (river_stage_issue_rule ⟨"Monongahela", 17, 25⟩ (by decide) 25).1 (by decide)

/-- C5: the stage classifier on an absent reading returns Unknown with
label `—` for every config, and on a present reading, for every config
with action stage below flood stage, follows exactly the case analysis
flood / action / elevated (action minus three feet) / normal, all
boundaries inclusive. -/
theorem stage_status_cases :
    (∀ action flood : ℚ,
      stage_status none action flood = ("unknown", "—", "#546e7a")) ∧
    (∀ action flood : ℚ, action < flood → ∀ g : ℚ,
      (flood ≤ g → (stage_status (some g) action flood).1 = "flood") ∧
      (g < flood → action ≤ g → (stage_status (some g) action flood).1 = "action") ∧
      (g < action → action - 3 ≤ g →
        (stage_status (some g) action flood).1 = "elevated") ∧
      (g < action - 3 → (stage_status (some g) action flood).1 = "normal")) := by
  refine ⟨fun action flood => rfl, fun action flood hlt g => ⟨?_, ?_, ?_, ?_⟩⟩
  · intro hf
    simp only [stage_status]
    rw [if_pos hf]
  · intro h1 h2
    simp only [stage_status]
    rw [if_neg (not_le.mpr h1), if_pos h2]
  · intro h1 h2
    simp only [stage_status]
    rw [if_neg (not_le.mpr (lt_trans h1 hlt)), if_neg (not_le.mpr h1), if_pos h2]
  · intro h1
    have h2 : g < action := by linarith
    simp only [stage_status]
    rw [if_neg (not_le.mpr (lt_trans h2 hlt)), if_neg (not_le.mpr h2),
        if_neg (not_le.mpr h1)]

/-- Witness for C5: with the Monongahela thresholds, a 25 ft reading is
tier flood, and an absent reading is Unknown with label `—`. -/
theorem stage_status_cases_witness :
    (stage_status (some 25) 17 25).1 = "flood" ∧
    stage_status none 17 25 = ("unknown", "—", "#546e7a") :=
  ⟨(stage_status_cases.2 17 25 (by decide) 25).1 (by decide),
   stage_status_cases.1 17 25⟩

/-- C6 counterexample: the displayed fog-risk classifier contradicts the
claim at visibility 2.0 mi, which it classifies MODERATE, not Low, and on
an absent reading, which it classifies LOW, not unknown. -/
theorem fog_risk_spec_counterexample :
    fog_risk (some 2) = "MODERATE" ∧ fog_risk (some 2) ≠ "LOW" ∧
    fog_risk none = "LOW" ∧ fog_risk none ≠ "unknown" := by decide

/-- C6 amended: the displayed fog-risk classifier uses the thresholds one
and three miles — present non-zero visibility below 1 mi is HIGH, from
1 mi up to below 3 mi is MODERATE, at or above 3 mi is LOW — and an
absent (or zero, by truthiness) reading is displayed LOW; the scoring
engine, separately, stays silent on absent visibility. -/
theorem fog_risk_code_thresholds :
    (∀ v : ℚ, v ≠ 0 →
      ((v < 1 → fog_risk (some v) = "HIGH") ∧
       (1 ≤ v → v < 3 → fog_risk (some v) = "MODERATE") ∧
       (3 ≤ v → fog_risk (some v) = "LOW"))) ∧
    fog_risk none = "LOW" ∧ fog_risk (some 0) = "LOW" ∧
    visIssues none = [] ∧ visWarns none = [] := by
  refine ⟨fun v hv => ⟨?_, ?_, ?_⟩, rfl, by decide, rfl, rfl⟩
  · intro h
    simp only [fog_risk]
    rw [if_pos ⟨hv, h⟩]
  · intro h1 h2
    simp only [fog_risk]
    rw [if_neg (fun hc => absurd hc.2 (not_lt.mpr h1)), if_pos ⟨hv, h2⟩]
  · intro h
    simp only [fog_risk]
    rw [if_neg (fun hc => absurd hc.2 (not_lt.mpr (by linarith))),
        if_neg (fun hc => absurd hc.2 (not_lt.mpr h))]

/-- Witness for the amended C6: visibility 1.8 mi is displayed
MODERATE. -/
theorem fog_risk_code_thresholds_witness :
    fog_risk (some (mkRat 9 5)) = "MODERATE" :=
  (fog_risk_code_thresholds.1 (mkRat 9 5) (by decide)).2.1 (by decide) (by decide)

/-- C7 counterexample: a present visibility reading of exactly 0 mi (which
normalization produces from any raw reading under about 80 m) is below
0.5 mi, yet the engine adds no issue and no warning — with every other
input absent the verdict stays Favorable — because the rule tests Python
truthiness of the value, not its presence. -/
theorem visibility_rule_counterexample :
    (0 : ℚ) < mkRat 1 2 ∧
    visIssues (some 0) = [] ∧
    composite_score (mkSnap none none none [] none none none none (some 0) none) =
      ⟨"CONDITIONS FAVORABLE", "score-go", "✓", [], []⟩ := by decide

/-- C7 amended: for a present non-zero visibility reading the engine adds
the dense-fog issue exactly when visibility is below 0.5 mi, the
reduced-visibility warning exactly when it is at least 0.5 mi and below
2 mi, and nothing at or above 2 mi; an absent reading — and, by
truthiness, a reading of exactly 0 — leaves the rule silent. -/
theorem visibility_rule_amended :
    (∀ v : ℚ, v ≠ 0 →
      ((v < mkRat 1 2 →
        visIssues (some v) = ["DENSE FOG — LIMITED VISIBILITY"] ∧
        visWarns (some v) = []) ∧
       (mkRat 1 2 ≤ v → v < 2 →
        visIssues (some v) = [] ∧
        visWarns (some v) = ["REDUCED VISIBILITY / FOG"]) ∧
       (2 ≤ v → visIssues (some v) = [] ∧ visWarns (some v) = []))) ∧
    visIssues none = [] ∧ visWarns none = [] ∧
    visIssues (some 0) = [] ∧ visWarns (some 0) = [] := by
  refine ⟨fun v hv => ⟨?_, ?_, ?_⟩, rfl, rfl, by decide, by decide⟩
  · intro h
    constructor
    · simp only [visIssues]
      rw [if_pos ⟨hv, h⟩]
    · simp only [visWarns]
      rw [if_pos ⟨hv, h⟩]
  · intro h1 h2
    constructor
    · simp only [visIssues]
      rw [if_neg (fun hc => absurd hc.2 (not_lt.mpr h1))]
    · simp only [visWarns]
      rw [if_neg (fun hc => absurd hc.2 (not_lt.mpr h1)), if_pos ⟨hv, h2⟩]
  · intro h
    have hh : mkRat 1 2 ≤ v := le_trans (by decide) h
    constructor
    · simp only [visIssues]
      rw [if_neg (fun hc => absurd hc.2 (not_lt.mpr hh))]
    · simp only [visWarns]
      rw [if_neg (fun hc => absurd hc.2 (not_lt.mpr hh)),
          if_neg (fun hc => absurd hc.2 (not_lt.mpr h))]

/-- Witness for the amended C7: visibility 1.8 mi produces exactly the
reduced-visibility warning and no issue. -/
theorem visibility_rule_amended_witness :
    visIssues (some (mkRat 9 5)) = [] ∧
    visWarns (some (mkRat 9 5)) = ["REDUCED VISIBILITY / FOG"] :=
  (visibility_rule_amended.1 (mkRat 9 5) (by decide)).2.1 (by decide) (by decide)

/-- C8: for a present wind speed, above 25 mph the engine adds exactly the
dangerous-wind issue and no wind warning; above 15 mph and at most 25 mph
exactly the high-wind warning and no wind issue; at most 15 mph neither;
the wind rule never feeds both lists at once, and an absent wind speed
leaves it silent. -/
theorem wind_rule_cases :
    (∀ w : ℚ,
      (25 < w →
        windIssues (some w) = ["DANGEROUS WIND (" ++ fmt0 w ++ " mph)"] ∧
        windWarns (some w) = []) ∧
      (15 < w → w ≤ 25 →
        windIssues (some w) = [] ∧
        windWarns (some w) = ["HIGH WIND (" ++ fmt0 w ++ " mph)"]) ∧
      (w ≤ 15 → windIssues (some w) = [] ∧ windWarns (some w) = []) ∧
      (windIssues (some w) = [] ∨ windWarns (some w) = [])) ∧
    windIssues none = [] ∧ windWarns none = [] := by
  refine ⟨fun w => ⟨?_, ?_, ?_, ?_⟩, rfl, rfl⟩
  · intro h
    have hw : w ≠ 0 := ne_of_gt (by linarith)
    constructor
    · simp only [windIssues]
      rw [if_pos ⟨hw, h⟩]
    · simp only [windWarns]
      rw [if_pos ⟨hw, h⟩]
  · intro h1 h2
    have hw : w ≠ 0 := ne_of_gt (by linarith)
    constructor
    · simp only [windIssues]
      rw [if_neg (fun hc => absurd hc.2 (not_lt.mpr h2))]
    · simp only [windWarns]
      rw [if_neg (fun hc => absurd hc.2 (not_lt.mpr h2)), if_pos ⟨hw, h1⟩]
  · intro h
    constructor
    · simp only [windIssues]
      rw [if_neg (fun hc => absurd hc.2 (not_lt.mpr (by linarith)))]
    · simp only [windWarns]
      rw [if_neg (fun hc => absurd hc.2 (not_lt.mpr (by linarith))),
          if_neg (fun hc => absurd hc.2 (not_lt.mpr h))]
  · by_cases hI : w ≠ 0 ∧ w > 25
    · refine Or.inr ?_
      simp only [windWarns]
      rw [if_pos hI]
    · refine Or.inl ?_
      simp only [windIssues]
      rw [if_neg hI]

/-- Witness for C8, scenario B: wind 20 mph gives only the high-wind
warning, wind 30 mph only the dangerous-wind issue. -/
theorem wind_rule_cases_witness :
    windWarns (some 20) = ["HIGH WIND (20 mph)"] ∧
    windIssues (some 20) = [] ∧
    windIssues (some 30) = ["DANGEROUS WIND (30 mph)"] ∧
    windWarns (some 30) = [] :=
  ⟨((wind_rule_cases.1 20).2.1 (by decide) (by decide)).2,
   ((wind_rule_cases.1 20).2.1 (by decide) (by decide)).1,
   ((wind_rule_cases.1 30).1 (by decide)).1,
   ((wind_rule_cases.1 30).1 (by decide)).2⟩

/-- C9: the CSO/overflow-risk estimator is HIGH exactly when the 24h
precipitation sum reaches 0.5 in or the precipitation probability reaches
70 percent, otherwise MODERATE exactly when the sum reaches 0.2 in or the
probability reaches 40 percent, otherwise LOW. -/
theorem cso_risk_cases :
    ∀ s p : ℚ,
      ((mkRat 1 2 ≤ s ∨ 70 ≤ p) →
        cso_risk_from_precip s p = ("HIGH OVERFLOW RISK", "alcosan-warn", "▲")) ∧
      (s < mkRat 1 2 → p < 70 → (mkRat 1 5 ≤ s ∨ 40 ≤ p) →
        cso_risk_from_precip s p = ("MODERATE RISK", "alcosan-warn", "◈")) ∧
      (s < mkRat 1 5 → p < 40 →
        cso_risk_from_precip s p = ("LOW RISK", "alcosan-ok", "●")) := by
  intro s p
  refine ⟨?_, ?_, ?_⟩
  · intro h
    simp only [cso_risk_from_precip]
    rw [if_pos h]
  · intro h1 h2 h3
    simp only [cso_risk_from_precip]
    rw [if_neg (fun hc => hc.elim (fun ha => absurd ha (not_le.mpr h1))
          (fun hb => absurd hb (not_le.mpr h2))), if_pos h3]
  · intro h1 h2
    have h1h : s < mkRat 1 2 := lt_of_lt_of_le h1 (by decide)
    have h2h : p < 70 := lt_trans h2 (by decide)
    simp only [cso_risk_from_precip]
    rw [if_neg (fun hc => hc.elim (fun ha => absurd ha (not_le.mpr h1h))
          (fun hb => absurd hb (not_le.mpr h2h))),
        if_neg (fun hc => hc.elim (fun ha => absurd ha (not_le.mpr h1))
          (fun hb => absurd hb (not_le.mpr h2)))]

/-- Witness for C9, scenario D: sum 0.6 in with probability 10 percent is
HIGH — the sum threshold alone triggers. -/
theorem cso_risk_cases_witness :
    cso_risk_from_precip (mkRat 3 5) 10 =
      ("HIGH OVERFLOW RISK", "alcosan-warn", "▲") :=
  (cso_risk_cases (mkRat 3 5) 10).1 (Or.inl (by decide))

/-- C10: a present visibility reading of exactly 0 meters is normalized to
absent, so the scoring rule adds neither the dense-fog issue nor the fog
warning and the displayed fog risk is LOW — indistinguishable from a
missing reading at the scoring interface. -/
theorem zero_visibility_absent :
    visibility_mi_of (some 0) = none ∧
    visibility_mi_of none = none ∧
    visIssues (visibility_mi_of (some 0)) = [] ∧
    visWarns (visibility_mi_of (some 0)) = [] ∧
    fog_risk (visibility_mi_of (some 0)) = "LOW" := by decide
